import Mathlib

/-!
Verification of the neotoma operational scripts against their natural-language
specification.  The central object is the tiered content-extraction procedure
shared (with variations) by `scripts/scrape_nytimes_simple.py` and
`scripts/scrape_nytimes_article.py`; further definitions model the record
persisted by the scrapers, the top-level exit-code logic of each script, the
environment checks of `scripts/add_ngrok_mapping.py`, and the sample-file
creation pass of `scripts/create_sample_parquet_files.py`.
-/

/-- Outcome of looking up one selector on a rendered page: the underlying
query raised (`err`), returned no element (`noMatch`), or returned an element
whose visible text is `text` (`found`). -/
inductive SelOutcome where
  | err : SelOutcome
  | noMatch : SelOutcome
  | found (text : String) : SelOutcome
deriving DecidableEq

/-- A loaded page, as the extraction tier sees it: a mapping from selector
strings to lookup outcomes, plus the visible text of the whole document body
(`page.locator('body').inner_text()`). -/
structure Document where
  query : String → SelOutcome
  bodyText : String

/-- Result of one extraction call: the extracted text and the selector that
produced it, `none` standing for the fallback sentinel (whole-body text). -/
structure ExtractionResult where
  text : String
  matchedSelector : Option String
deriving DecidableEq

/-- The selector loop of `scrape_article` in scrape_nytimes_simple.py
(lines 54-69): `content` starts as `None`; a selector that errors or matches
nothing is skipped; a selector that matches stores its text, and the loop
breaks as soon as that text has length strictly greater than 500. -/
def simpleScan (d : Document) : List String → Option (String × String) → Option (String × String)
  | [], acc => acc
  | s :: rest, acc =>
    match d.query s with
    | .found t => if 500 < t.length then some (s, t) else simpleScan d rest (some (s, t))
    | _ => simpleScan d rest acc

/-- The extraction tier of `scrape_article` in scrape_nytimes_simple.py
(lines 54-73): after the selector loop, `if not content or len(content) < 500`
the body text is used as fallback. -/
def scrape_article_extract (d : Document) (selectors : List String) : ExtractionResult :=
  match simpleScan d selectors none with
  | some (s, t) => if t.length < 500 then ⟨d.bodyText, none⟩ else ⟨t, some s⟩
  | none => ⟨d.bodyText, none⟩

/-- The selector loop of `scrape_nytimes_article` in scrape_nytimes_article.py
(lines 69-78): the loop breaks at the first selector that matches an element,
whatever its text; a selector that errors (e.g. `wait_for_selector` timeout)
or matches nothing is skipped. -/
def articleScan (d : Document) : List String → Option (String × String)
  | [] => none
  | s :: rest =>
    match d.query s with
    | .found t => some (s, t)
    | _ => articleScan d rest

/-- The extraction tier of `scrape_nytimes_article` in
scrape_nytimes_article.py (lines 69-83): after the loop,
`if not article_content` the body text is used as fallback, so an empty
first match also falls back. -/
def scrape_nytimes_article_extract (d : Document) (selectors : List String) : ExtractionResult :=
  match articleScan d selectors with
  | some (s, t) => if t = "" then ⟨d.bodyText, none⟩ else ⟨t, some s⟩
  | none => ⟨d.bodyText, none⟩

/-- The hard-coded selector list of scrape_nytimes_simple.py (lines 55-60). -/
def simple_article_selectors : List String :=
  ["article[data-testid=\"article\"]",
   "section[data-testid=\"article-body\"]",
   ".StoryBodyCompanionColumn",
   "article"]

/-- The hard-coded selector list of scrape_nytimes_article.py (lines 60-67). -/
def nytimes_article_selectors : List String :=
  ["article[data-testid=\"article\"]",
   "article",
   "[data-testid=\"article-body\"]",
   "section[data-testid=\"article-body\"]",
   ".StoryBodyCompanionColumn",
   "div[class*=\"article\"]"]

/-- The selectors of a list that matched an element, with their texts, in
list order.  This is the set of candidate yields the spec's properties
quantify over. -/
def foundList (d : Document) (sels : List String) : List (String × String) :=
  sels.filterMap fun s =>
    match d.query s with
    | .found t => some (s, t)
    | _ => none

/-- Replace the outcome of one selector, leaving the rest of the document
unchanged (used to compare an erroring selector with a non-matching one). -/
def Document.override (d : Document) (x : String) (o : SelOutcome) : Document :=
  ⟨fun s => if s = x then o else d.query s, d.bodyText⟩

example :
    scrape_article_extract ⟨fun _ => .noMatch, "BODY"⟩ simple_article_selectors
      = ⟨"BODY", none⟩ := by decide

example :
    scrape_nytimes_article_extract ⟨fun s => if s = "article" then .found "hi" else .noMatch,
      "BODY"⟩ nytimes_article_selectors = ⟨"hi", some "article"⟩ := by decide

/-! Persisted output records (scrape_nytimes_article.py lines 121-128 and
168-169; scrape_nytimes_simple.py lines 89-95 and 138-139). -/

/-- JSON scalar values appearing in the persisted records. -/
inductive JVal where
  | str (s : String) : JVal
  | num (n : Nat) : JVal
  | jnull : JVal
deriving DecidableEq

/-- Python `None` becomes JSON `null`; a present string is serialized as a
JSON string. -/
def optStr : Option String → JVal
  | some s => .str s
  | none => .jnull

/-- The `result` dict built by scrape_nytimes_article.py (lines 121-128); the
content-length entry transcribes `len(article_content) if article_content
else 0`. -/
def article_result_record (url title : String) (author pubDate : Option String)
    (content : String) : List (String × JVal) :=
  [("url", .str url),
   ("title", .str title),
   ("author", optStr author),
   ("publication_date", optStr pubDate),
   ("content", .str content),
   ("content_length", .num (if content = "" then 0 else content.length))]

/-- The `result` dict built by scrape_nytimes_simple.py (lines 89-95); it has
no publication-date entry and its content-length entry is `len(content)`. -/
def simple_result_record (url title : String) (author : Option String)
    (content : String) : List (String × JVal) :=
  [("url", .str url),
   ("title", .str title),
   ("author", optStr author),
   ("content", .str content),
   ("content_length", .num content.length)]

/-- How a persisted record is encoded to disk: file encoding, `indent`
argument and `ensure_ascii` argument of `json.dump`. -/
structure JsonWriteConfig where
  encoding : String
  indent : Option Nat
  ensureAscii : Bool
deriving DecidableEq

/-- scrape_nytimes_simple.py lines 138-139: `open(output_file, 'w',
encoding='utf-8')` and `json.dump(result, f, indent=2, ensure_ascii=False)`. -/
def simple_output_write : JsonWriteConfig := ⟨"utf-8", some 2, false⟩

/-- scrape_nytimes_article.py lines 168-169: `open(args.output, 'w',
encoding='utf-8')` and `json.dump(result, f, indent=2, ensure_ascii=False)`. -/
def article_output_write : JsonWriteConfig := ⟨"utf-8", some 2, false⟩

/-! Top-level entry points and exit codes (scrape_nytimes_simple.py lines
135-152, scrape_nytimes_article.py lines 160-182, add_ngrok_mapping.py lines
97-99). -/

/-- How one run of a scraper's `try` block ends: the operation completed, the
user interrupted it, or some exception was raised (navigation failure,
extraction failure, file-write failure, ...). -/
inductive RunOutcome where
  | success : RunOutcome
  | keyboardInterrupt : RunOutcome
  | exn : RunOutcome
deriving DecidableEq

/-- Exit code of scrape_nytimes_simple.py `__main__`: the script falls off
the end (exit 0) on success and calls `sys.exit(1)` in both `except` arms. -/
def scrape_simple_main_exit : RunOutcome → Nat
  | .success => 0
  | .keyboardInterrupt => 1
  | .exn => 1

/-- Exit code of scrape_nytimes_article.py `__main__`: same handler shape as
the simple scraper. -/
def scrape_article_main_exit : RunOutcome → Nat
  | .success => 0
  | .keyboardInterrupt => 1
  | .exn => 1

/-- How the service interaction of add_ngrok_mapping.py ends once both
environment checks pass: the connection/session setup raises before
`call_tool` runs, or `call_tool("add_record", ...)` runs and reports
`isError` true or false. -/
inductive ConnOutcome where
  | connectFailure : ConnOutcome
  | toolResult (isErr : Bool) : ConnOutcome
deriving DecidableEq

/-- Observable outcome of one run of `add_ngrok_mapping`: the returned
boolean, how many `add_record` calls were issued, how many connection
attempts were started, and whether the environment-check remediation hint
(`Please set ... environment variable to correct path`) was printed. -/
structure NgrokRunResult where
  success : Bool
  addRecordCalls : Nat
  connectionAttempts : Nat
  envHintPrinted : Bool
deriving DecidableEq

/-- Transcription of `add_ngrok_mapping` (add_ngrok_mapping.py lines 32-95):
the two `Path(...).exists()` checks run before any connection is attempted
and return `False` with a remediation hint; otherwise the client connects
and issues the single `add_record` call, returning `False` when the call
reports an error or the connection raises, `True` otherwise. -/
def add_ngrok_mapping (pythonExists serverExists : Bool) (conn : ConnOutcome) :
    NgrokRunResult :=
  if !pythonExists then ⟨false, 0, 0, true⟩
  else if !serverExists then ⟨false, 0, 0, true⟩
  else
    match conn with
    | .connectFailure => ⟨false, 0, 1, false⟩
    | .toolResult true => ⟨false, 1, 1, false⟩
    | .toolResult false => ⟨true, 1, 1, false⟩

/-- add_ngrok_mapping.py lines 97-99: `sys.exit(0 if success else 1)`. -/
def add_ngrok_main_exit (pythonExists serverExists : Bool) (conn : ConnOutcome) : Nat :=
  if (add_ngrok_mapping pythonExists serverExists conn).success then 0 else 1

example : add_ngrok_mapping false true (.toolResult false) = ⟨false, 0, 0, true⟩ := by decide
example : add_ngrok_main_exit true true (.toolResult false) = 0 := by decide

/-! Sample parquet file creation (create_sample_parquet_files.py).  The
filesystem is modelled as a list of entries (directory, file name, abstract
content); Python string operations used by the script are modelled on
character lists. -/

/-- Whether `needle` is an initial segment of `hay` (character lists). -/
def strStartsWith : List Char → List Char → Bool
  | _, [] => true
  | [], _ :: _ => false
  | c :: cs, n :: ns => c = n && strStartsWith cs ns

/-- Python's `needle in hay` membership test on strings, on character
lists: some suffix of `hay` starts with `needle`. -/
def strHasSub : List Char → List Char → Bool
  | [], needle => needle.isEmpty
  | c :: rest, needle => strStartsWith (c :: rest) needle || strHasSub rest needle

/-- Python's `str.endswith` on strings. -/
def strEndsWith (s suffix : String) : Bool :=
  strStartsWith s.toList.reverse suffix.toList.reverse

/-- Left-to-right non-overlapping replacement on character lists, with fuel
bounding the recursion; models Python's `str.replace` for a nonempty
pattern when the fuel is at least the length of the text. -/
def replaceSub (needle repl : List Char) : Nat → List Char → List Char
  | 0, hay => hay
  | _ + 1, [] => []
  | fuel + 1, c :: rest =>
    if needle ≠ [] && strStartsWith (c :: rest) needle then
      repl ++ replaceSub needle repl fuel ((c :: rest).drop needle.length)
    else
      c :: replaceSub needle repl fuel rest

/-- Python's `str.replace(oldS, newS)` for the nonempty patterns used by the
script. -/
def pyReplace (s oldS newS : String) : String :=
  ⟨replaceSub oldS.toList newS.toList s.toList.length s.toList⟩

example : pyReplace "a.parquet" ".parquet" "_sample.parquet" = "a_sample.parquet" := by decide

/-- One file in the modelled filesystem: its directory, its name, and an
abstract stand-in for its contents. -/
structure FsEntry where
  dir : String
  name : String
  content : Nat
deriving DecidableEq

/-- The filesystem is the list of existing files. -/
abbrev Fs := List FsEntry

/-- Whether a path (directory, name) exists in the filesystem
(`Path.exists()`). -/
def fsHas (fs : Fs) (d n : String) : Bool :=
  fs.any fun e => e.dir = d && e.name = n

/-- The contents stored at a path, if the file exists. -/
def fsGet (fs : Fs) (d n : String) : Option Nat :=
  (fs.find? fun e => e.dir = d && e.name = n).map FsEntry.content

/-- One record produced by `find_parquet_files`: the source file and the
name of its sample file (in the same directory). -/
structure FileInfo where
  sourceDir : String
  sourceName : String
  sampleName : String
deriving DecidableEq

/-- Transcription of `find_parquet_files` (create_sample_parquet_files.py
lines 17-35): every existing `*.parquet` file, skipping files with
`_sample` in the name or `snapshots` in the full path, paired with the
sample path `name.replace(".parquet", "_sample.parquet")` in the same
directory. -/
def find_parquet_files (fs : Fs) : List FileInfo :=
  fs.filterMap fun e =>
    if strEndsWith e.name ".parquet"
        && !(strHasSub e.name.toList "_sample".toList)
        && !(strHasSub (e.dir ++ "/" ++ e.name).toList "snapshots".toList) then
      some ⟨e.dir, e.name, pyReplace e.name ".parquet" "_sample.parquet"⟩
    else none

/-- The per-file loop of `main` (create_sample_parquet_files.py lines
93-111): when the sample path already exists the file is skipped before
`create_sample_file` is called; otherwise `create_sample_file` either
writes the sample file (modelled by the oracle `createOk` returning its
contents — the read succeeded, the file was small enough and nonempty) or
writes nothing. -/
def sampleMainLoop (createOk : String → String → Option Nat) :
    List FileInfo → Fs → Fs
  | [], fs => fs
  | fi :: rest, fs =>
    if fsHas fs fi.sourceDir fi.sampleName then
      sampleMainLoop createOk rest fs
    else
      match createOk fi.sourceDir fi.sourceName with
      | some c => sampleMainLoop createOk rest (fs ++ [⟨fi.sourceDir, fi.sampleName, c⟩])
      | none => sampleMainLoop createOk rest fs

/-- Transcription of `main` (create_sample_parquet_files.py lines 73-117):
enumerate the parquet files, truncate to `max_files` when a numeric
argument was given, and run the per-file loop on the current filesystem. -/
def sample_files_main (createOk : String → String → Option Nat)
    (maxFiles : Option Nat) (fs : Fs) : Fs :=
  sampleMainLoop createOk
    (match maxFiles with
     | some n => (find_parquet_files fs).take n
     | none => find_parquet_files fs) fs

example :
    sample_files_main (fun _ _ => some 5) none
      [⟨"d", "a.parquet", 7⟩, ⟨"d", "a_sample.parquet", 9⟩]
      = [⟨"d", "a.parquet", 7⟩, ⟨"d", "a_sample.parquet", 9⟩] := by decide

example :
    sample_files_main (fun _ _ => some 5) none [⟨"d", "a.parquet", 7⟩]
      = [⟨"d", "a.parquet", 7⟩, ⟨"d", "a_sample.parquet", 5⟩] := by decide

/-! Helper lemmas about the extraction loops. -/

theorem foundList_cons_found (d : Document) (s : String) (rest : List String) (t : String)
    (h : d.query s = .found t) : foundList d (s :: rest) = (s, t) :: foundList d rest := by
  simp [foundList, List.filterMap_cons, h]

theorem foundList_cons_skip (d : Document) (s : String) (rest : List String)
    (h : ∀ t, d.query s ≠ .found t) : foundList d (s :: rest) = foundList d rest := by
  cases hq : d.query s with
  | err => simp [foundList, List.filterMap_cons, hq]
  | noMatch => simp [foundList, List.filterMap_cons, hq]
  | found t => exact absurd hq (h t)

theorem foundList_append (d : Document) (l₁ l₂ : List String) :
    foundList d (l₁ ++ l₂) = foundList d l₁ ++ foundList d l₂ := by
  simp [foundList, List.filterMap_append]

/-- When every candidate yield stays within the break threshold, the simple
scraper's loop never breaks and ends with the last candidate (or the
starting accumulator when no selector matched). -/
theorem simpleScan_eq_getLast (d : Document) (sels : List String)
    (h : ∀ p ∈ foundList d sels, p.2.length ≤ 500) :
    ∀ acc, simpleScan d sels acc =
      match (foundList d sels).getLast? with
      | some p => some p
      | none => acc := by
  induction sels with
  | nil => intro acc; simp [simpleScan, foundList]
  | cons s rest ih =>
    intro acc
    cases hq : d.query s with
    | err =>
      rw [foundList_cons_skip d s rest (by simp [hq])] at h ⊢
      simpa [simpleScan, hq] using ih h acc
    | noMatch =>
      rw [foundList_cons_skip d s rest (by simp [hq])] at h ⊢
      simpa [simpleScan, hq] using ih h acc
    | found t =>
      rw [foundList_cons_found d s rest t hq] at h ⊢
      have ht : t.length ≤ 500 := h (s, t) (List.mem_cons_self ..)
      have hl : ¬ 500 < t.length := by omega
      have hrest : ∀ p ∈ foundList d rest, p.2.length ≤ 500 :=
        fun p hp => h p (List.mem_cons_of_mem _ hp)
      rw [show simpleScan d (s :: rest) acc = simpleScan d rest (some (s, t)) by
        simp [simpleScan, hq, hl]]
      rw [ih hrest (some (s, t))]
      cases hfl : foundList d rest with
      | nil => simp
      | cons q l' =>
        rw [List.getLast?_cons_cons]
        cases hgl : (q :: l').getLast? with
        | some p => simp
        | none => exact absurd (List.getLast?_eq_none_iff.mp hgl) (by simp)

/-- When some candidate yield exceeds the break threshold, the simple
scraper's loop breaks with a yield exceeding it. -/
theorem simpleScan_big (d : Document) (sels : List String)
    (h : ∃ p ∈ foundList d sels, 500 < p.2.length) :
    ∀ acc, ∃ q, simpleScan d sels acc = some q ∧ 500 < q.2.length := by
  induction sels with
  | nil => simp [foundList] at h
  | cons s rest ih =>
    intro acc
    cases hq : d.query s with
    | err =>
      rw [foundList_cons_skip d s rest (by simp [hq])] at h
      simpa [simpleScan, hq] using ih h acc
    | noMatch =>
      rw [foundList_cons_skip d s rest (by simp [hq])] at h
      simpa [simpleScan, hq] using ih h acc
    | found t =>
      by_cases hl : 500 < t.length
      · exact ⟨(s, t), by simp [simpleScan, hq, hl], hl⟩
      · rw [foundList_cons_found d s rest t hq] at h
        obtain ⟨p, hp, hpl⟩ := h
        rcases List.mem_cons.mp hp with rfl | hp'
        · exact absurd hpl hl
        · simpa [simpleScan, hq, hl] using ih ⟨p, hp', hpl⟩ (some (s, t))

/-- The article scraper's loop returns the first candidate that matched an
element, whatever its text. -/
theorem articleScan_eq_head (d : Document) (sels : List String) :
    articleScan d sels = (foundList d sels).head? := by
  induction sels with
  | nil => rfl
  | cons s rest ih =>
    cases hq : d.query s with
    | err =>
      rw [foundList_cons_skip d s rest (by simp [hq])]
      simpa [articleScan, hq] using ih
    | noMatch =>
      rw [foundList_cons_skip d s rest (by simp [hq])]
      simpa [articleScan, hq] using ih
    | found t =>
      rw [foundList_cons_found d s rest t hq]
      simp [articleScan, hq]

/-- Turning one erroring selector into a non-matching one leaves the simple
scraper's loop unchanged. -/
theorem simpleScan_override (d : Document) (x : String) (h : d.query x = .err)
    (sels : List String) :
    ∀ acc, simpleScan (d.override x .noMatch) sels acc = simpleScan d sels acc := by
  induction sels with
  | nil => intro acc; rfl
  | cons s rest ih =>
    intro acc
    by_cases hs : s = x
    · subst hs
      have h1 : (d.override s .noMatch).query s = .noMatch := by simp [Document.override]
      rw [show simpleScan (d.override s .noMatch) (s :: rest) acc
            = simpleScan (d.override s .noMatch) rest acc by simp [simpleScan, h1]]
      rw [show simpleScan d (s :: rest) acc = simpleScan d rest acc by simp [simpleScan, h]]
      exact ih acc
    · have h1 : (d.override x .noMatch).query s = d.query s := by simp [Document.override, hs]
      cases hq : d.query s with
      | err => simpa [simpleScan, h1, hq] using ih acc
      | noMatch => simpa [simpleScan, h1, hq] using ih acc
      | found t =>
        by_cases hl : 500 < t.length
        · simp [simpleScan, h1, hq, hl]
        · simpa [simpleScan, h1, hq, hl] using ih (some (s, t))

/-- Turning one erroring selector into a non-matching one leaves the article
scraper's loop unchanged. -/
theorem articleScan_override (d : Document) (x : String) (h : d.query x = .err)
    (sels : List String) :
    articleScan (d.override x .noMatch) sels = articleScan d sels := by
  induction sels with
  | nil => rfl
  | cons s rest ih =>
    by_cases hs : s = x
    · subst hs
      have h1 : (d.override s .noMatch).query s = .noMatch := by simp [Document.override]
      rw [show articleScan (d.override s .noMatch) (s :: rest)
            = articleScan (d.override s .noMatch) rest by simp [articleScan, h1]]
      rw [show articleScan d (s :: rest) = articleScan d rest by simp [articleScan, h]]
      exact ih
    · have h1 : (d.override x .noMatch).query s = d.query s := by simp [Document.override, hs]
      cases hq : d.query s with
      | err => simpa [articleScan, h1, hq] using ih
      | noMatch => simpa [articleScan, h1, hq] using ih
      | found t => simp [articleScan, h1, hq]

theorem getLast?_mem {α : Type} (l : List α) (p : α) (h : l.getLast? = some p) : p ∈ l := by
  have := List.mem_getLast?_eq_getLast (l := l) (x := p) (by simp [h])
  obtain ⟨hh, rfl⟩ := this
  exact List.getLast_mem hh

/-- When every selector before `s` yields nothing over the break threshold
and `s` yields text longer than 500 characters, the simple scraper's loop
breaks at `s`. -/
theorem simpleScan_break (d : Document) (pre post : List String) (s t : String)
    (hq : d.query s = .found t) (hlen : 500 < t.length)
    (hpre : ∀ p ∈ foundList d pre, p.2.length ≤ 500) :
    ∀ acc, simpleScan d (pre ++ s :: post) acc = some (s, t) := by
  induction pre with
  | nil => intro acc; simp [simpleScan, hq, hlen]
  | cons s' pre' ih =>
    intro acc
    cases hq' : d.query s' with
    | err =>
      rw [foundList_cons_skip d s' pre' (by simp [hq'])] at hpre
      simpa [simpleScan, hq'] using ih hpre acc
    | noMatch =>
      rw [foundList_cons_skip d s' pre' (by simp [hq'])] at hpre
      simpa [simpleScan, hq'] using ih hpre acc
    | found t' =>
      rw [foundList_cons_found d s' pre' t' hq'] at hpre
      have ht' : t'.length ≤ 500 := hpre (s', t') (List.mem_cons_self ..)
      have hl' : ¬ 500 < t'.length := by omega
      have hrest : ∀ p ∈ foundList d pre', p.2.length ≤ 500 :=
        fun p hp => hpre p (List.mem_cons_of_mem _ hp)
      simpa [simpleScan, hq', hl'] using ih hrest (some (s', t'))

/-! Claim C1. -/

/-- Document refuting C1 as stated: selector `a` matches an element whose
text is empty, selector `b` matches an element with text `hello`. -/
def c1cexDoc : Document :=
  ⟨fun s => if s = "a" then .found "" else if s = "b" then .found "hello" else .noMatch,
   "BODY"⟩

/-- C1 counterexample.  In scrape_nytimes_article.py, the first selector
whose text meets the minimum length (here the code's implicit minimum of a
nonempty text) is `b`, yet the extraction does not return `b`: the scan
stops at `a`, whose element has empty text, and falls back to the body,
contradicting the claimed result `⟨"hello", some "b"⟩`. -/
theorem c1_counterexample :
    c1cexDoc.query "b" = .found "hello" ∧ 1 ≤ "hello".length ∧
    (∀ p ∈ foundList c1cexDoc ["a"], p.2.length < 1) ∧
    scrape_nytimes_article_extract c1cexDoc ["a", "b"] ≠ ⟨"hello", some "b"⟩ := by
  decide

/-- C1 (amended): in the simple scraper, if at least one selector yields
text of length strictly greater than 500 (the code's `len(content) > 500`
break test), the result is the first such selector and its text; in the
article scraper — which applies no length test inside its loop — the result
is the first selector that matches an element, provided no earlier selector
matches an element and the matched text is nonempty. -/
theorem c1_first_sufficient_selector_amended (d : Document) (pre post : List String)
    (s t : String) (hq : d.query s = .found t) :
    (500 < t.length → (∀ p ∈ foundList d pre, p.2.length ≤ 500) →
      scrape_article_extract d (pre ++ s :: post) = ⟨t, some s⟩)
    ∧ (t ≠ "" → foundList d pre = [] →
      scrape_nytimes_article_extract d (pre ++ s :: post) = ⟨t, some s⟩) := by
  constructor
  · intro hlen hpre
    have hscan := simpleScan_break d pre post s t hq hlen hpre none
    have hge : ¬ t.length < 500 := by omega
    simp [scrape_article_extract, hscan, hge]
  · intro hne hpre
    have hhead : articleScan d (pre ++ s :: post) = some (s, t) := by
      rw [articleScan_eq_head, foundList_append, hpre,
        foundList_cons_found d s post t hq]
      rfl
    simp [scrape_nytimes_article_extract, hhead, hne]

/-- Text of length 501, above the simple scraper's break threshold. -/
def c1wText : String := ⟨List.replicate 501 'x'⟩

/-- Witness document for C1: selector `a` matches nothing, selector `b`
yields 501 characters. -/
def c1wDoc : Document :=
  ⟨fun s => if s = "b" then .found c1wText else .noMatch, "BODY"⟩

set_option maxRecDepth 100000 in
theorem c1_witness :
    scrape_article_extract c1wDoc (["a"] ++ "b" :: []) = ⟨c1wText, some "b"⟩
    ∧ scrape_nytimes_article_extract c1wDoc (["a"] ++ "b" :: []) = ⟨c1wText, some "b"⟩ := by
  have h := c1_first_sufficient_selector_amended c1wDoc ["a"] [] "b" c1wText (by decide)
  exact ⟨h.1 (by decide) (by decide), h.2 (by decide) (by decide)⟩

/-! Claim C2. -/

/-- C2: when no selector yields text meeting the minimum length — for the
simple scraper, no candidate text of length at least 500 (`len(content) <
500` is the code's fallback test); for the article scraper, no nonempty
candidate text — the result is the fallback: its text is the whole-body
text, whatever its length, and its matched selector is the fallback
sentinel.  The empty selector list satisfies both hypotheses vacuously. -/
theorem c2_fallback_on_no_sufficient_selector (d : Document) (sels : List String) :
    ((∀ p ∈ foundList d sels, p.2.length < 500) →
      scrape_article_extract d sels = ⟨d.bodyText, none⟩)
    ∧ ((∀ p ∈ foundList d sels, p.2 = "") →
      scrape_nytimes_article_extract d sels = ⟨d.bodyText, none⟩) := by
  constructor
  · intro h
    have hle : ∀ p ∈ foundList d sels, p.2.length ≤ 500 :=
      fun p hp => Nat.le_of_lt (h p hp)
    have hscan := simpleScan_eq_getLast d sels hle none
    cases hgl : (foundList d sels).getLast? with
    | none =>
      rw [hgl] at hscan
      simp [scrape_article_extract, hscan]
    | some p =>
      rw [hgl] at hscan
      have hp : p.2.length < 500 := h p (getLast?_mem _ p hgl)
      obtain ⟨ps, pt⟩ := p
      simp [scrape_article_extract, hscan, hp]
  · intro h
    have hscan := articleScan_eq_head d sels
    cases hh : (foundList d sels).head? with
    | none =>
      rw [hh] at hscan
      simp [scrape_nytimes_article_extract, hscan]
    | some p =>
      rw [hh] at hscan
      have hp : p.2 = "" := by
        refine h p ?_
        cases hfl : foundList d sels with
        | nil => rw [hfl] at hh; simp at hh
        | cons q l' =>
          rw [hfl] at hh
          simp at hh
          subst hh
          exact List.mem_cons_self ..
      obtain ⟨ps, pt⟩ := p
      simp at hp
      simp [scrape_nytimes_article_extract, hscan, hp]

/-- Witness document for C2: the only selector errors. -/
def c2wDoc : Document := ⟨fun _ => .err, "B"⟩

theorem c2_witness :
    scrape_article_extract c2wDoc ["x"] = ⟨"B", none⟩
    ∧ scrape_nytimes_article_extract c2wDoc ["x"] = ⟨"B", none⟩ :=
  ⟨(c2_fallback_on_no_sufficient_selector c2wDoc ["x"]).1 (by decide),
   (c2_fallback_on_no_sufficient_selector c2wDoc ["x"]).2 (by decide)⟩

/-! Claim C3. -/

/-- Text of exactly 500 characters, the edge where the simple scraper's
break test (`> 500`) and fallback test (`< 500`) disagree. -/
def c3cexText : String := ⟨List.replicate 500 'x'⟩

/-- Document refuting C3 as stated: selector `a` yields 500 characters,
selector `b` yields 2 characters. -/
def c3cexDoc : Document :=
  ⟨fun s => if s = "a" then .found c3cexText else if s = "b" then .found "hi" else .noMatch,
   "B"⟩

set_option maxRecDepth 100000 in
/-- C3 counterexample.  In scrape_nytimes_simple.py, selector `a` produced
text of length 500, meeting the minimum length (the code's constant 500),
yet the loop does not break (its test is strict), keeps scanning, stores
the 2-character yield of `b`, and falls back — so the result is the
fallback even though a candidate met the threshold, refuting the claimed
equivalence. -/
theorem c3_counterexample :
    ¬ ((scrape_article_extract c3cexDoc ["a", "b"]).matchedSelector = none ↔
        ∀ p ∈ foundList c3cexDoc ["a", "b"], p.2.length < 500) := by
  decide

/-- C3 (amended): the simple scraper's result is the fallback iff no
selector yields text longer than 500 characters and the last selector that
matched an element (if any) yields text shorter than 500 characters; the
article scraper's result is the fallback iff no selector matched an
element or the first selector that matched yields empty text. -/
theorem c3_fallback_iff_amended (d : Document) (sels : List String) :
    ((scrape_article_extract d sels).matchedSelector = none ↔
      (∀ p ∈ foundList d sels, p.2.length ≤ 500) ∧
        ∀ p, (foundList d sels).getLast? = some p → p.2.length < 500)
    ∧ ((scrape_nytimes_article_extract d sels).matchedSelector = none ↔
      ∀ p, (foundList d sels).head? = some p → p.2 = "") := by
  constructor
  · constructor
    · intro hm
      by_cases hbig : ∃ p ∈ foundList d sels, 500 < p.2.length
      · obtain ⟨q, hq1, hq2⟩ := simpleScan_big d sels hbig none
        obtain ⟨qs, qt⟩ := q
        simp at hq2
        simp [scrape_article_extract, hq1] at hm
        rw [if_neg (by omega)] at hm
        simp at hm
      · push_neg at hbig
        refine ⟨hbig, ?_⟩
        intro p hp
        have hscan := simpleScan_eq_getLast d sels hbig none
        rw [hp] at hscan
        by_contra hge
        obtain ⟨ps, pt⟩ := p
        simp at hscan hge
        simp [scrape_article_extract, hscan] at hm
        rw [if_neg (by omega)] at hm
        simp at hm
    · rintro ⟨hle, hlast⟩
      have hscan := simpleScan_eq_getLast d sels hle none
      cases hgl : (foundList d sels).getLast? with
      | none =>
        rw [hgl] at hscan
        simp at hscan
        simp [scrape_article_extract, hscan]
      | some p =>
        rw [hgl] at hscan
        have hp := hlast p hgl
        obtain ⟨ps, pt⟩ := p
        simp at hscan hp
        simp [scrape_article_extract, hscan, hp]
  · have hscan := articleScan_eq_head d sels
    cases hh : (foundList d sels).head? with
    | none =>
      rw [hh] at hscan
      simp [scrape_nytimes_article_extract, hscan]
    | some p =>
      rw [hh] at hscan
      obtain ⟨ps, pt⟩ := p
      by_cases hp : pt = ""
      · simp [scrape_nytimes_article_extract, hscan, hp]
      · simp [scrape_nytimes_article_extract, hscan, hp]

/-- Witness document for C3: the only selector matches nothing. -/
def c3wDoc : Document := ⟨fun _ => .noMatch, "B"⟩

theorem c3_witness :
    ((scrape_article_extract c3wDoc ["a"]).matchedSelector = none ↔
      (∀ p ∈ foundList c3wDoc ["a"], p.2.length ≤ 500) ∧
        ∀ p, (foundList c3wDoc ["a"]).getLast? = some p → p.2.length < 500)
    ∧ ((scrape_nytimes_article_extract c3wDoc ["a"]).matchedSelector = none ↔
      ∀ p, (foundList c3wDoc ["a"]).head? = some p → p.2 = "") :=
  c3_fallback_iff_amended c3wDoc ["a"]

/-! Claim C4. -/

/-- C4: a selector whose lookup raises is treated exactly as a selector
with no match — replacing the erroring outcome by a no-match outcome leaves
both extractions unchanged, so evaluation continues with the subsequent
selectors in either case. -/
theorem c4_error_equals_no_match (d : Document) (x : String) (sels : List String)
    (h : d.query x = .err) :
    scrape_article_extract (d.override x .noMatch) sels = scrape_article_extract d sels
    ∧ scrape_nytimes_article_extract (d.override x .noMatch) sels
        = scrape_nytimes_article_extract d sels := by
  constructor
  · have h1 := simpleScan_override d x h sels none
    unfold scrape_article_extract
    rw [h1]
    rfl
  · have h2 := articleScan_override d x h sels
    unfold scrape_nytimes_article_extract
    rw [h2]
    rfl

/-- Witness document for C4: selector `a` errors, selector `b` yields
text. -/
def c4wDoc : Document :=
  ⟨fun s => if s = "a" then .err else if s = "b" then .found "hi" else .noMatch, "B"⟩

theorem c4_witness :
    scrape_article_extract (c4wDoc.override "a" .noMatch) ["a", "b"]
        = scrape_article_extract c4wDoc ["a", "b"]
    ∧ scrape_nytimes_article_extract (c4wDoc.override "a" .noMatch) ["a", "b"]
        = scrape_nytimes_article_extract c4wDoc ["a", "b"] :=
  c4_error_equals_no_match c4wDoc "a" ["a", "b"] (by decide)

/-! Claim C8. -/

/-- C8: extraction is a pure function of the document and the selector
list — two calls on equal inputs return equal results, for both
scrapers. -/
theorem c8_extraction_deterministic (d₁ d₂ : Document) (sels₁ sels₂ : List String)
    (hd : d₁ = d₂) (hs : sels₁ = sels₂) :
    scrape_article_extract d₁ sels₁ = scrape_article_extract d₂ sels₂
    ∧ scrape_nytimes_article_extract d₁ sels₁ = scrape_nytimes_article_extract d₂ sels₂ := by
  subst hd
  subst hs
  exact ⟨rfl, rfl⟩

/-- Witness document for C8. -/
def c8wDoc : Document := ⟨fun s => if s = "a" then .found "hi" else .noMatch, "B"⟩

theorem c8_witness :
    scrape_article_extract c8wDoc ["a"] = scrape_article_extract c8wDoc ["a"]
    ∧ scrape_nytimes_article_extract c8wDoc ["a"]
        = scrape_nytimes_article_extract c8wDoc ["a"] :=
  c8_extraction_deterministic c8wDoc c8wDoc ["a"] ["a"] rfl rfl

/-! Claim C5. -/

/-- C5 counterexample.  The record persisted by scrape_nytimes_simple.py
does not contain exactly the six claimed fields: it has no
`publication_date` entry. -/
theorem c5_counterexample :
    ¬ ((simple_result_record "u" "t" none "c").map Prod.fst
        = ["url", "title", "author", "publication_date", "content", "content_length"]) := by
  decide

/-- C5 (amended): the record persisted by scrape_nytimes_article.py has
exactly the fields url, title, author, publication_date, content and
content_length, in that order; the record persisted by
scrape_nytimes_simple.py has exactly url, title, author, content and
content_length (no publication_date).  Both scripts write the record to the
caller-specified path opened with UTF-8 encoding, `indent=2` and
`ensure_ascii=False` (non-ASCII characters left unescaped). -/
theorem c5_persisted_record_fields_amended (url title : String)
    (author pubDate : Option String) (content : String) :
    (article_result_record url title author pubDate content).map Prod.fst
        = ["url", "title", "author", "publication_date", "content", "content_length"]
    ∧ (simple_result_record url title author content).map Prod.fst
        = ["url", "title", "author", "content", "content_length"]
    ∧ article_output_write = ⟨"utf-8", some 2, false⟩
    ∧ simple_output_write = ⟨"utf-8", some 2, false⟩ :=
  ⟨rfl, rfl, rfl, rfl⟩

/-! Claim C6. -/

/-- C6: each script's entry point exits with code 0 exactly when the
operation succeeds and with code 1 on any handled error — the scrapers'
`except` arms (KeyboardInterrupt or any exception, covering navigation
failure) both call `sys.exit(1)`, and the mapping script exits with
`0 if success else 1`, which is 1 in particular on service-connection
failure. -/
theorem c6_exit_codes (o : RunOutcome) (py sv : Bool) (conn : ConnOutcome) :
    (scrape_simple_main_exit o = if o = .success then 0 else 1)
    ∧ (scrape_article_main_exit o = if o = .success then 0 else 1)
    ∧ (add_ngrok_main_exit py sv conn = 0
        ↔ (add_ngrok_mapping py sv conn).success = true)
    ∧ add_ngrok_main_exit true true .connectFailure = 1
    ∧ scrape_simple_main_exit .exn = 1 := by
  refine ⟨?_, ?_, ?_, by decide, by decide⟩
  · cases o <;> decide
  · cases o <;> decide
  · cases hs : (add_ngrok_mapping py sv conn).success <;>
      simp [add_ngrok_main_exit, hs]

/-! Claim C7. -/

/-- C7: when the Python executable or the service script is missing, the
mapping operation fails before any service work: it returns `False` (so the
process exits 1), makes no connection attempt and no `add_record` call —
leaving the record store unchanged — and prints the remediation hint. -/
theorem c7_env_checks_eager (py sv : Bool) (conn : ConnOutcome)
    (h : py = false ∨ sv = false) :
    add_ngrok_mapping py sv conn = ⟨false, 0, 0, true⟩
    ∧ add_ngrok_main_exit py sv conn = 1 := by
  rcases h with h | h
  · subst h
    exact ⟨rfl, rfl⟩
  · subst h
    cases py <;> exact ⟨rfl, rfl⟩

theorem c7_witness :
    add_ngrok_mapping false true (.toolResult false) = ⟨false, 0, 0, true⟩
    ∧ add_ngrok_main_exit false true (.toolResult false) = 1 :=
  c7_env_checks_eager false true (.toolResult false) (Or.inl rfl)

/-! Claim C9. -/

/-- C9: in both persisted records the content_length entry equals the
character count of the content entry — also when the content is empty,
where scrape_nytimes_article.py computes `0` through its
`if article_content` guard and `0 = len("")`. -/
theorem c9_content_length_field (url title : String) (author pubDate : Option String)
    (content : String) :
    (article_result_record url title author pubDate content).lookup "content_length"
        = some (.num content.length)
    ∧ (simple_result_record url title author content).lookup "content_length"
        = some (.num content.length) := by
  constructor
  · show some (JVal.num (if content = "" then 0 else content.length))
        = some (JVal.num content.length)
    by_cases h : content = "" <;> simp [h]
  · rfl

/-! Claim C10. -/

theorem fsGet_append (fs w : Fs) (d n : String) (h : fsHas fs d n = true) :
    fsGet (fs ++ w) d n = fsGet fs d n := by
  induction fs with
  | nil => simp [fsHas] at h
  | cons e fs ih =>
    by_cases he : (decide (e.dir = d) && decide (e.name = n)) = true
    · simp [fsGet, List.find?, he]
    · have h' : fsHas fs d n = true := by
        simpa [fsHas, List.any_cons, he] using h
      simpa [fsGet, List.find?, he] using ih h'

/-- The per-file loop only ever appends newly written sample files to the
filesystem. -/
theorem sampleMainLoop_append (createOk : String → String → Option Nat)
    (l : List FileInfo) : ∀ fs : Fs, ∃ w, sampleMainLoop createOk l fs = fs ++ w := by
  induction l with
  | nil => intro fs; exact ⟨[], by simp [sampleMainLoop]⟩
  | cons fi rest ih =>
    intro fs
    by_cases hex : fsHas fs fi.sourceDir fi.sampleName = true
    · obtain ⟨w, hw⟩ := ih fs
      exact ⟨w, by simp [sampleMainLoop, hex, hw]⟩
    · cases hc : createOk fi.sourceDir fi.sourceName with
      | none =>
        obtain ⟨w, hw⟩ := ih fs
        exact ⟨w, by simp [sampleMainLoop, hex, hc, hw]⟩
      | some c =>
        obtain ⟨w, hw⟩ := ih (fs ++ [⟨fi.sourceDir, fi.sampleName, c⟩])
        refine ⟨⟨fi.sourceDir, fi.sampleName, c⟩ :: w, ?_⟩
        simp [sampleMainLoop, hex, hc, hw]

/-- C10: a source file whose sample path already exists before the run is
skipped — after the run, the contents stored at that sample path are
unchanged, whatever the outcomes of the individual sample creations and
whatever file limit was passed; and no file whose own name contains
`_sample` is ever selected as a source. -/
theorem c10_sample_not_overwritten (createOk : String → String → Option Nat)
    (maxFiles : Option Nat) (fs : Fs) (fi : FileInfo)
    (hmem : fi ∈ find_parquet_files fs)
    (hex : fsHas fs fi.sourceDir fi.sampleName = true) :
    fsGet (sample_files_main createOk maxFiles fs) fi.sourceDir fi.sampleName
        = fsGet fs fi.sourceDir fi.sampleName
    ∧ strHasSub fi.sourceName.toList "_sample".toList = false := by
  constructor
  · unfold sample_files_main
    cases maxFiles with
    | none =>
      obtain ⟨w, hw⟩ := sampleMainLoop_append createOk (find_parquet_files fs) fs
      rw [hw, fsGet_append fs w _ _ hex]
    | some k =>
      obtain ⟨w, hw⟩ := sampleMainLoop_append createOk ((find_parquet_files fs).take k) fs
      rw [hw, fsGet_append fs w _ _ hex]
  · simp only [find_parquet_files, List.mem_filterMap] at hmem
    obtain ⟨e, he, hfi⟩ := hmem
    split at hfi
    · next hguard =>
      obtain ⟨rfl⟩ : fi = ⟨e.dir, e.name, pyReplace e.name ".parquet" "_sample.parquet"⟩ :=
        (Option.some.injEq ..).mp hfi.symm
      simp only [Bool.and_eq_true, Bool.not_eq_true'] at hguard
      exact hguard.1.2
    · simp at hfi

/-- Witness filesystem for C10: the sample of `a.parquet` already exists. -/
def c10wFs : Fs := [⟨"d", "a.parquet", 7⟩, ⟨"d", "a_sample.parquet", 9⟩]

/-- The file record that `find_parquet_files` produces for `a.parquet`. -/
def c10wFi : FileInfo := ⟨"d", "a.parquet", "a_sample.parquet"⟩

theorem c10_witness :
    fsGet (sample_files_main (fun _ _ => some 5) none c10wFs)
        c10wFi.sourceDir c10wFi.sampleName
      = fsGet c10wFs c10wFi.sourceDir c10wFi.sampleName
    ∧ strHasSub c10wFi.sourceName.toList "_sample".toList = false :=
  c10_sample_not_overwritten (fun _ _ => some 5) none c10wFs c10wFi
    (by decide) (by decide)
